import Mathlib

/-!
# CustomOperator reconciler

A shallow embedding of `controllers/customoperator_controller.go`:
`Reconcile`, `createDeployment` and `labelsForCustomOperator`, over the
Kubernetes object types they touch.

* A Go `map[string]string` literal is a list of key/value pairs.
* A Go `*int32` is `Option Nat`: `none` is `nil`, `some a` is the address of
  an `int32` cell.  Go compares pointers by address, so `!=` on two `*int32`
  is `≠` on `Option Nat`.  The contents of the cells are a function
  `Nat → Int`.
* The embedded `client.Client` is a record of the responses of the cluster:
  one function per call the reconciler can make.  Every call `Reconcile` makes
  is recorded, in order, in the `calls` of its outcome.
* Logging has no effect on the cluster or on the result and is left out.
-/

set_option linter.dupNamespace false

namespace Controllers

/-! ## Kubernetes object model -/

/-- The `metav1.OwnerReference` fields. -/
structure OwnerReference where
  APIVersion : String
  Kind : String
  Name : String
  UID : String
  Controller : Option Bool
  BlockOwnerDeletion : Option Bool
deriving DecidableEq, Repr

/-- The `metav1.ObjectMeta` fields used by the controller and by
`controllerutil.SetControllerReference`. -/
structure ObjectMeta where
  Name : String := ""
  Namespace : String := ""
  UID : String := ""
  Labels : List (String × String) := []
  OwnerReferences : List OwnerReference := []
deriving DecidableEq, Repr

/-- The spec of `replicav1alpha1.CustomOperator`: `Replicas` is an `int32` value
(its address is taken with `&instance.Spec.Replicas`). -/
structure CustomOperatorSpec where
  Replicas : Int := 0
deriving DecidableEq, Repr

/-- The custom resource `replicav1alpha1.CustomOperator`. -/
structure CustomOperator where
  ObjectMeta : ObjectMeta := {}
  Spec : CustomOperatorSpec := {}
deriving DecidableEq, Repr

/-- The `metav1.LabelSelector` field used here. -/
structure LabelSelector where
  MatchLabels : List (String × String) := []
deriving DecidableEq, Repr

/-- The `corev1.ContainerPort` fields used here. -/
structure ContainerPort where
  Name : String := ""
  ContainerPort : Int := 0
deriving DecidableEq, Repr

/-- The `corev1.Container` fields used here. -/
structure Container where
  Image : String := ""
  Name : String := ""
  Ports : List ContainerPort := []
deriving DecidableEq, Repr

/-- The `corev1.PodSpec` field used here. -/
structure PodSpec where
  Containers : List Container := []
deriving DecidableEq, Repr

/-- The `corev1.PodTemplateSpec`. -/
structure PodTemplateSpec where
  ObjectMeta : ObjectMeta := {}
  Spec : PodSpec := {}
deriving DecidableEq, Repr

/-- The `appsv1.DeploymentSpec`: `Replicas` is a `*int32` (an address or nil),
`Selector` a `*metav1.LabelSelector`. -/
structure DeploymentSpec where
  Replicas : Option Nat := none
  Selector : Option LabelSelector := none
  Template : PodTemplateSpec := {}
deriving DecidableEq, Repr

/-- The child object `appsv1.Deployment`. -/
structure Deployment where
  ObjectMeta : ObjectMeta := {}
  Spec : DeploymentSpec := {}
deriving DecidableEq, Repr

/-- The key `types.NamespacedName`. -/
structure NamespacedName where
  Namespace : String
  Name : String
deriving DecidableEq, Repr

/-- The request `ctrl.Request` (it embeds its `NamespacedName`). -/
structure Request where
  NamespacedName : NamespacedName
deriving DecidableEq, Repr

/-- The promoted field `req.Namespace`. -/
def Request.Namespace (req : Request) : String := req.NamespacedName.Namespace

/-- The result `ctrl.Result`; `RequeueAfter` is a duration. -/
structure Result where
  Requeue : Bool := false
  RequeueAfter : Nat := 0
deriving DecidableEq, Repr

/-! ## Errors -/

/-- The `metav1.StatusReason` of an API error. -/
inductive StatusReason where
  | Unknown
  | NotFound
  | AlreadyExists
  | Conflict
  | Timeout
  | InternalError
deriving DecidableEq, Repr

/-- A Go `error` value as returned by the client: its status reason and message. -/
structure GoError where
  reason : StatusReason
  message : String
deriving DecidableEq, Repr

/-- The test `k8serr.IsNotFound(err)`. -/
def IsNotFound (err : GoError) : Bool :=
  decide (err.reason = StatusReason.NotFound)

/-! ## The cluster accessor and the reconciler -/

/-- One call on the embedded `client.Client`.  `Reconcile` only ever makes the
first four; `delete` and `patch` are the other mutating methods of the
interface. -/
inductive Call where
  | getCustomOperator (key : NamespacedName)
  | getDeployment (key : NamespacedName)
  | create (obj : Deployment)
  | update (obj : Deployment)
  | delete (obj : Deployment)
  | patch (obj : Deployment)
deriving DecidableEq, Repr

/-- The responses of the cluster to the calls of one invocation.  `cells` gives
the contents of the `int32` cells that the pointers inside the objects it
returns point to. -/
structure Client where
  getCustomOperator : NamespacedName → Except GoError CustomOperator
  getDeployment : NamespacedName → Except GoError Deployment
  create : Deployment → Option GoError
  update : Deployment → Option GoError
  cells : Nat → Int

/-- A `schema.GroupVersionKind`. -/
structure GroupVersionKind where
  Group : String
  Version : String
  Kind : String
deriving DecidableEq, Repr

/-- The part of `runtime.Scheme` the controller uses: the kinds registered for the
Go type `CustomOperator` (what `scheme.ObjectKinds(instance)` finds). -/
structure Scheme where
  customOperatorKinds : List GroupVersionKind
deriving DecidableEq, Repr

/-- The `CustomOperatorReconciler`: the embedded client and the scheme. -/
structure CustomOperatorReconciler where
  Client : Client
  Scheme : Scheme

/-- What one invocation of `Reconcile` returns, `(ctrl.Result, error)`, together
with the calls it made on the client, in order. -/
structure Outcome where
  result : Result
  err : Option GoError
  calls : List Call
deriving DecidableEq, Repr

/-! ## controller-runtime: `controllerutil.SetControllerReference`

The library function called at line 162 (controller-runtime v0.9.2, the version
the source links to).  It is not part of this repository; it is embedded here
because `createDeployment` discards its error. -/

/-- The `gvk.GroupVersion().String()`. -/
def GroupVersionKind.apiVersion (gvk : GroupVersionKind) : String :=
  if gvk.Group = "" then gvk.Version else gvk.Group ++ "/" ++ gvk.Version

/-- The group of an `apiVersion` string (`schema.ParseGroupVersion`), `none` when it
does not parse. -/
def groupOfAPIVersion (gv : String) : Option String :=
  match gv.splitOn "/" with
  | [_] => some ""
  | [g, _] => some g
  | _ => none

/-- The check `validateOwner`: a namespaced owner must live in the namespace of the
object it owns. -/
def validateOwner (owner object : ObjectMeta) : Option String :=
  if owner.Namespace ≠ "" then
    if object.Namespace = "" then
      some "cluster-scoped resource must not have a namespace-scoped owner"
    else if owner.Namespace ≠ object.Namespace then
      some "cross-namespace owner references are disallowed"
    else none
  else none

/-- The lookup `apiutil.GVKForObject(instance, scheme)`: exactly one registered kind. -/
def GVKForObject (scheme : Scheme) : Except String GroupVersionKind :=
  match scheme.customOperatorKinds with
  | [] => .error "no kind is registered for the type"
  | [gvk] => .ok gvk
  | _ :: _ :: _ => .error "multiple group-version-kinds associated with type"

/-- The test `referSameObject`: same group, kind and name. -/
def referSameObject (a b : OwnerReference) : Bool :=
  match groupOfAPIVersion a.APIVersion, groupOfAPIVersion b.APIVersion with
  | some ga, some gb => decide (ga = gb ∧ a.Kind = b.Kind ∧ a.Name = b.Name)
  | _, _ => false

/-- The lookup `metav1.GetControllerOf`: the owner reference marked as controller. -/
def GetControllerOf (object : ObjectMeta) : Option OwnerReference :=
  object.OwnerReferences.find? (fun ref => ref.Controller = some true)

/-- The helper `upsertOwnerRef`: replace the first reference to the same object
(`indexOwnerRef`), or append when there is none. -/
def upsertOwnerRef (ref : OwnerReference) : List OwnerReference → List OwnerReference
  | [] => [ref]
  | o :: owners =>
    if referSameObject o ref then ref :: owners else o :: upsertOwnerRef ref owners

/-- The function `controllerutil.SetControllerReference(owner, controlled, scheme)`:
the error it returns (if any) and the controlled object as it leaves it. -/
def SetControllerReference (owner : CustomOperator) (controlled : Deployment)
    (scheme : Scheme) : Option String × Deployment :=
  match validateOwner owner.ObjectMeta controlled.ObjectMeta with
  | some e => (some e, controlled)
  | none =>
    match GVKForObject scheme with
    | .error e => (some e, controlled)
    | .ok gvk =>
      let ref : OwnerReference :=
        { APIVersion := gvk.apiVersion
          Kind := gvk.Kind
          Name := owner.ObjectMeta.Name
          UID := owner.ObjectMeta.UID
          BlockOwnerDeletion := some true
          Controller := some true }
      match GetControllerOf controlled.ObjectMeta with
      | some existing =>
        if referSameObject existing ref then
          (none, { controlled with
            ObjectMeta := { controlled.ObjectMeta with
              OwnerReferences := upsertOwnerRef ref controlled.ObjectMeta.OwnerReferences } })
        else (some "object is already owned by another controller", controlled)
      | none =>
        (none, { controlled with
          ObjectMeta := { controlled.ObjectMeta with
            OwnerReferences := upsertOwnerRef ref controlled.ObjectMeta.OwnerReferences } })

/-! ## The controller -/

/-- The function `labelsForCustomOperator`: the labels for selecting the resources
belonging to the given CR name. -/
def labelsForCustomOperator (name : String) : List (String × String) :=
  [("app", "replicas"), ("customoperator_cr", name)]

/-- The method `createDeployment`.  `replicasAddr` is the address
`&instance.Spec.Replicas`.  The error of `SetControllerReference` is dropped. -/
def createDeployment (r : CustomOperatorReconciler) (inst : CustomOperator)
    (replicasAddr : Nat) (name : String) (ns : String) : Deployment :=
  let replicas : Option Nat := some replicasAddr
  let lables := labelsForCustomOperator inst.ObjectMeta.Name
  let deploy : Deployment :=
    { ObjectMeta := { Name := name, Namespace := ns }
      Spec :=
        { Replicas := replicas
          Selector := some { MatchLabels := lables }
          Template :=
            { ObjectMeta := { Labels := lables }
              Spec :=
                { Containers :=
                    [{ Image := "nginx:latest"
                       Name := "nginx-image"
                       Ports := [{ Name := "nginx", ContainerPort := 80 }] }] } } } }
  (SetControllerReference inst deploy r.Scheme).2

/-- The method `Reconcile`.  `replicasAddr` is the address of the field
`instance.Spec.Replicas` of the instance allocated at line 61. -/
def Reconcile (r : CustomOperatorReconciler) (replicasAddr : Nat) (req : Request) :
    Outcome :=
  match r.Client.getCustomOperator req.NamespacedName with
  | .error err =>
    if IsNotFound err then
      { result := {}, err := none, calls := [.getCustomOperator req.NamespacedName] }
    else
      { result := {}, err := some err, calls := [.getCustomOperator req.NamespacedName] }
  | .ok inst =>
    let deploymentName := "custom-operator-deployment"
    let deploymentNamespace := req.Namespace
    let key : NamespacedName := { Name := deploymentName, Namespace := deploymentNamespace }
    match r.Client.getDeployment key with
    | .error err =>
      if IsNotFound err then
        let deploy := createDeployment r inst replicasAddr deploymentName deploymentNamespace
        match r.Client.create deploy with
        | some err =>
          { result := {}, err := some err
            calls := [.getCustomOperator req.NamespacedName, .getDeployment key, .create deploy] }
        | none =>
          { result := { Requeue := true }, err := none
            calls := [.getCustomOperator req.NamespacedName, .getDeployment key, .create deploy] }
      else
        { result := {}, err := some err
          calls := [.getCustomOperator req.NamespacedName, .getDeployment key] }
    | .ok deployment =>
      let replicas : Option Nat := some replicasAddr
      if deployment.Spec.Replicas ≠ replicas then
        let deployment : Deployment :=
          { deployment with Spec := { deployment.Spec with Replicas := replicas } }
        match r.Client.update deployment with
        | some err =>
          { result := {}, err := some err
            calls := [.getCustomOperator req.NamespacedName, .getDeployment key,
                      .update deployment] }
        | none =>
          { result := {}, err := none
            calls := [.getCustomOperator req.NamespacedName, .getDeployment key,
                      .update deployment] }
      else
        { result := {}, err := none
          calls := [.getCustomOperator req.NamespacedName, .getDeployment key] }

/-! ## Vocabulary of the properties -/

/-- The contents of the `int32` cells while `Reconcile` runs: the cell of
`instance.Spec.Replicas` holds the value read into the instance, every other
cell is as the client left it. -/
def heapOf (cells : Nat → Int) (replicasAddr : Nat) (inst : CustomOperator) :
    Nat → Int :=
  fun a => if a = replicasAddr then inst.Spec.Replicas else cells a

/-- The replica count of a deployment: the value its `Spec.Replicas` points to
(`none` for a nil pointer). -/
def replicaCount (heap : Nat → Int) (d : Deployment) : Option Int :=
  d.Spec.Replicas.map heap

/-- The objects passed to `create`, in order. -/
def creates : List Call → List Deployment
  | [] => []
  | .create obj :: cs => obj :: creates cs
  | _ :: cs => creates cs

/-- The objects passed to `update`, in order. -/
def updates : List Call → List Deployment
  | [] => []
  | .update obj :: cs => obj :: updates cs
  | _ :: cs => updates cs

/-- Whether a call is a read. -/
def Call.isRead : Call → Bool
  | .getCustomOperator _ => true
  | .getDeployment _ => true
  | _ => false

/-- Whether a call mutates the cluster. -/
def Call.isMutation : Call → Bool
  | .create _ => true
  | .update _ => true
  | .delete _ => true
  | .patch _ => true
  | _ => false

/-- Whether a call is a delete. -/
def Call.isDelete : Call → Bool
  | .delete _ => true
  | _ => false

/-- The key of the child that a child read looks up or a create creates (the name
and namespace of the object passed to `create`); `none` for the other calls. -/
def Call.lookupOrCreateKey : Call → Option NamespacedName
  | .getDeployment key => some key
  | .create obj => some { Namespace := obj.ObjectMeta.Namespace, Name := obj.ObjectMeta.Name }
  | _ => none

/-- Whether a deployment carries an owner reference to the given instance: a
reference with the instance's name and UID. -/
def hasOwnerReferenceTo (d : Deployment) (inst : CustomOperator) : Bool :=
  d.ObjectMeta.OwnerReferences.any
    (fun ref => decide (ref.Name = inst.ObjectMeta.Name ∧ ref.UID = inst.ObjectMeta.UID))

/-- The error a call on the client returns (`none` when it succeeds).  `delete`
and `patch` have no response in `Client`: the reconciler never makes them. -/
def Client.response (c : Client) : Call → Option GoError
  | .getCustomOperator key =>
    match c.getCustomOperator key with
    | .error e => some e
    | .ok _ => none
  | .getDeployment key =>
    match c.getDeployment key with
    | .error e => some e
    | .ok _ => none
  | .create obj => c.create obj
  | .update obj => c.update obj
  | .delete _ => none
  | .patch _ => none

/-- The key of the managed child for a request: the fixed name in the namespace of
the request. -/
def childKeyOf (req : Request) : NamespacedName :=
  { Name := "custom-operator-deployment", Namespace := req.Namespace }

/-- The child as `Reconcile` hands it to `update`: the child that was read, with its
`Spec.Replicas` pointing at `instance.Spec.Replicas`. -/
def withReplicas (child : Deployment) (replicasAddr : Nat) : Deployment :=
  { child with Spec := { child.Spec with Replicas := some replicasAddr } }

/-! ## Concrete clusters -/

/-- The error of a read of an absent object. -/
def notFound : GoError := { reason := .NotFound, message := "not found" }

/-- A write rejected by the cluster. -/
def conflict : GoError := { reason := .Conflict, message := "the object has been modified" }

/-- A cluster holding at most one instance and at most one child: a read succeeds on
the key of the object held and is `NotFound` otherwise; `create` and `update`
answer `writeErr`. -/
def cluster (held : Option CustomOperator) (child : Option Deployment)
    (writeErr : Option GoError) (cells : Nat → Int) : Client :=
  { getCustomOperator := fun key =>
      match held with
      | some i =>
        if i.ObjectMeta.Namespace = key.Namespace ∧ i.ObjectMeta.Name = key.Name then .ok i
        else .error notFound
      | none => .error notFound
    getDeployment := fun key =>
      match child with
      | some d =>
        if d.ObjectMeta.Namespace = key.Namespace ∧ d.ObjectMeta.Name = key.Name then .ok d
        else .error notFound
      | none => .error notFound
    create := fun _ => writeErr
    update := fun _ => writeErr
    cells := cells }

/-- The instance `team-a/svc` asking for the given number of replicas. -/
def svc (replicas : Int) : CustomOperator :=
  { ObjectMeta := { Name := "svc", Namespace := "team-a", UID := "uid-svc" }
    Spec := { Replicas := replicas } }

/-- A child in `team-a` as the cluster returns it: its replica count lives in cell
`100`, and it carries labels that are not the ones the controller would build. -/
def childAt100 : Deployment :=
  { ObjectMeta :=
      { Name := "custom-operator-deployment", Namespace := "team-a", UID := "uid-child"
        Labels := [("tier", "web")] }
    Spec :=
      { Replicas := some 100
        Selector := some { MatchLabels := [("app", "legacy")] }
        Template := { ObjectMeta := { Labels := [("app", "legacy")] } } } }

/-- The request for `team-a/svc`. -/
def reqSvc : Request := { NamespacedName := { Namespace := "team-a", Name := "svc" } }

/-- The request for another name in the same namespace. -/
def reqOther : Request := { NamespacedName := { Namespace := "team-a", Name := "other" } }

/-- A scheme in which the kind of `CustomOperator` is registered. -/
def registeredScheme : Scheme :=
  { customOperatorKinds :=
      [{ Group := "replica.example.com", Version := "v1alpha1", Kind := "CustomOperator" }] }

/-- A scheme in which no kind is registered for `CustomOperator`
(`runtime.NewScheme()`). -/
def emptyScheme : Scheme := { customOperatorKinds := [] }

/-! ## The paths through `Reconcile` -/

theorem Reconcile_instance_notFound (r : CustomOperatorReconciler) (a : Nat) (req : Request)
    (e : GoError) (hi : r.Client.getCustomOperator req.NamespacedName = .error e)
    (hnf : IsNotFound e = true) :
    Reconcile r a req =
      { result := {}, err := none, calls := [.getCustomOperator req.NamespacedName] } := by
  simp [Reconcile, hi, hnf]

theorem Reconcile_instance_error (r : CustomOperatorReconciler) (a : Nat) (req : Request)
    (e : GoError) (hi : r.Client.getCustomOperator req.NamespacedName = .error e)
    (hnf : IsNotFound e = false) :
    Reconcile r a req =
      { result := {}, err := some e, calls := [.getCustomOperator req.NamespacedName] } := by
  simp [Reconcile, hi, hnf]

theorem Reconcile_child_error (r : CustomOperatorReconciler) (a : Nat) (req : Request)
    (inst : CustomOperator) (e : GoError)
    (hi : r.Client.getCustomOperator req.NamespacedName = .ok inst)
    (hc : r.Client.getDeployment (childKeyOf req) = .error e)
    (hnf : IsNotFound e = false) :
    Reconcile r a req =
      { result := {}, err := some e
        calls := [.getCustomOperator req.NamespacedName, .getDeployment (childKeyOf req)] } := by
  simp only [childKeyOf] at hc
  simp [Reconcile, hi, hc, hnf, childKeyOf]

theorem Reconcile_create_error (r : CustomOperatorReconciler) (a : Nat) (req : Request)
    (inst : CustomOperator) (e0 e : GoError)
    (hi : r.Client.getCustomOperator req.NamespacedName = .ok inst)
    (hc : r.Client.getDeployment (childKeyOf req) = .error e0)
    (hnf : IsNotFound e0 = true)
    (hcr : r.Client.create
      (createDeployment r inst a "custom-operator-deployment" req.Namespace) = some e) :
    Reconcile r a req =
      { result := {}, err := some e
        calls := [.getCustomOperator req.NamespacedName, .getDeployment (childKeyOf req),
          .create (createDeployment r inst a "custom-operator-deployment" req.Namespace)] } := by
  simp only [childKeyOf] at hc
  simp [Reconcile, hi, hc, hnf, hcr, childKeyOf]

theorem Reconcile_create_ok (r : CustomOperatorReconciler) (a : Nat) (req : Request)
    (inst : CustomOperator) (e0 : GoError)
    (hi : r.Client.getCustomOperator req.NamespacedName = .ok inst)
    (hc : r.Client.getDeployment (childKeyOf req) = .error e0)
    (hnf : IsNotFound e0 = true)
    (hcr : r.Client.create
      (createDeployment r inst a "custom-operator-deployment" req.Namespace) = none) :
    Reconcile r a req =
      { result := { Requeue := true }, err := none
        calls := [.getCustomOperator req.NamespacedName, .getDeployment (childKeyOf req),
          .create (createDeployment r inst a "custom-operator-deployment" req.Namespace)] } := by
  simp only [childKeyOf] at hc
  simp [Reconcile, hi, hc, hnf, hcr, childKeyOf]

theorem Reconcile_update_error (r : CustomOperatorReconciler) (a : Nat) (req : Request)
    (inst : CustomOperator) (child : Deployment) (e : GoError)
    (hi : r.Client.getCustomOperator req.NamespacedName = .ok inst)
    (hc : r.Client.getDeployment (childKeyOf req) = .ok child)
    (hp : child.Spec.Replicas ≠ some a)
    (hu : r.Client.update (withReplicas child a) = some e) :
    Reconcile r a req =
      { result := {}, err := some e
        calls := [.getCustomOperator req.NamespacedName, .getDeployment (childKeyOf req),
          .update (withReplicas child a)] } := by
  simp only [childKeyOf] at hc
  simp only [withReplicas] at hu
  simp [Reconcile, hi, hc, hp, hu, childKeyOf, withReplicas]

theorem Reconcile_update_ok (r : CustomOperatorReconciler) (a : Nat) (req : Request)
    (inst : CustomOperator) (child : Deployment)
    (hi : r.Client.getCustomOperator req.NamespacedName = .ok inst)
    (hc : r.Client.getDeployment (childKeyOf req) = .ok child)
    (hp : child.Spec.Replicas ≠ some a)
    (hu : r.Client.update (withReplicas child a) = none) :
    Reconcile r a req =
      { result := {}, err := none
        calls := [.getCustomOperator req.NamespacedName, .getDeployment (childKeyOf req),
          .update (withReplicas child a)] } := by
  simp only [childKeyOf] at hc
  simp only [withReplicas] at hu
  simp [Reconcile, hi, hc, hp, hu, childKeyOf, withReplicas]

theorem Reconcile_same_pointer (r : CustomOperatorReconciler) (a : Nat) (req : Request)
    (inst : CustomOperator) (child : Deployment)
    (hi : r.Client.getCustomOperator req.NamespacedName = .ok inst)
    (hc : r.Client.getDeployment (childKeyOf req) = .ok child)
    (hp : child.Spec.Replicas = some a) :
    Reconcile r a req =
      { result := {}, err := none
        calls := [.getCustomOperator req.NamespacedName, .getDeployment (childKeyOf req)] } := by
  simp only [childKeyOf] at hc
  simp [Reconcile, hi, hc, hp, childKeyOf]

/-- Every invocation of `Reconcile` follows exactly one of its eight paths. -/
theorem Reconcile_paths (r : CustomOperatorReconciler) (a : Nat) (req : Request) :
    (∃ e, r.Client.getCustomOperator req.NamespacedName = .error e ∧ IsNotFound e = true ∧
      Reconcile r a req =
        { result := {}, err := none, calls := [.getCustomOperator req.NamespacedName] }) ∨
    (∃ e, r.Client.getCustomOperator req.NamespacedName = .error e ∧ IsNotFound e = false ∧
      Reconcile r a req =
        { result := {}, err := some e, calls := [.getCustomOperator req.NamespacedName] }) ∨
    (∃ inst e, r.Client.getCustomOperator req.NamespacedName = .ok inst ∧
      r.Client.getDeployment (childKeyOf req) = .error e ∧ IsNotFound e = false ∧
      Reconcile r a req =
        { result := {}, err := some e
          calls := [.getCustomOperator req.NamespacedName,
            .getDeployment (childKeyOf req)] }) ∨
    (∃ inst e0 e, r.Client.getCustomOperator req.NamespacedName = .ok inst ∧
      r.Client.getDeployment (childKeyOf req) = .error e0 ∧ IsNotFound e0 = true ∧
      r.Client.create
        (createDeployment r inst a "custom-operator-deployment" req.Namespace) = some e ∧
      Reconcile r a req =
        { result := {}, err := some e
          calls := [.getCustomOperator req.NamespacedName, .getDeployment (childKeyOf req),
            .create (createDeployment r inst a "custom-operator-deployment" req.Namespace)] }) ∨
    (∃ inst e0, r.Client.getCustomOperator req.NamespacedName = .ok inst ∧
      r.Client.getDeployment (childKeyOf req) = .error e0 ∧ IsNotFound e0 = true ∧
      r.Client.create
        (createDeployment r inst a "custom-operator-deployment" req.Namespace) = none ∧
      Reconcile r a req =
        { result := { Requeue := true }, err := none
          calls := [.getCustomOperator req.NamespacedName, .getDeployment (childKeyOf req),
            .create (createDeployment r inst a "custom-operator-deployment" req.Namespace)] }) ∨
    (∃ inst child e, r.Client.getCustomOperator req.NamespacedName = .ok inst ∧
      r.Client.getDeployment (childKeyOf req) = .ok child ∧
      child.Spec.Replicas ≠ some a ∧
      r.Client.update (withReplicas child a) = some e ∧
      Reconcile r a req =
        { result := {}, err := some e
          calls := [.getCustomOperator req.NamespacedName, .getDeployment (childKeyOf req),
            .update (withReplicas child a)] }) ∨
    (∃ inst child, r.Client.getCustomOperator req.NamespacedName = .ok inst ∧
      r.Client.getDeployment (childKeyOf req) = .ok child ∧
      child.Spec.Replicas ≠ some a ∧
      r.Client.update (withReplicas child a) = none ∧
      Reconcile r a req =
        { result := {}, err := none
          calls := [.getCustomOperator req.NamespacedName, .getDeployment (childKeyOf req),
            .update (withReplicas child a)] }) ∨
    (∃ inst child, r.Client.getCustomOperator req.NamespacedName = .ok inst ∧
      r.Client.getDeployment (childKeyOf req) = .ok child ∧
      child.Spec.Replicas = some a ∧
      Reconcile r a req =
        { result := {}, err := none
          calls := [.getCustomOperator req.NamespacedName,
            .getDeployment (childKeyOf req)] }) := by
  cases hi : r.Client.getCustomOperator req.NamespacedName with
  | error e =>
    cases hnf : IsNotFound e with
    | true => exact Or.inl ⟨e, rfl, hnf, Reconcile_instance_notFound r a req e hi hnf⟩
    | false =>
      exact Or.inr (Or.inl ⟨e, rfl, hnf, Reconcile_instance_error r a req e hi hnf⟩)
  | ok inst =>
    right; right
    cases hc : r.Client.getDeployment (childKeyOf req) with
    | error e0 =>
      cases hnf : IsNotFound e0 with
      | false =>
        exact Or.inl ⟨inst, e0, rfl, rfl, hnf, Reconcile_child_error r a req inst e0 hi hc hnf⟩
      | true =>
        right
        cases hcr : r.Client.create
            (createDeployment r inst a "custom-operator-deployment" req.Namespace) with
        | some e =>
          exact Or.inl ⟨inst, e0, e, rfl, rfl, hnf, hcr,
            Reconcile_create_error r a req inst e0 e hi hc hnf hcr⟩
        | none =>
          exact Or.inr (Or.inl ⟨inst, e0, rfl, rfl, hnf, hcr,
            Reconcile_create_ok r a req inst e0 hi hc hnf hcr⟩)
    | ok child =>
      right; right; right
      by_cases hp : child.Spec.Replicas = some a
      · exact Or.inr (Or.inr ⟨inst, child, rfl, rfl, hp,
          Reconcile_same_pointer r a req inst child hi hc hp⟩)
      · cases hu : r.Client.update (withReplicas child a) with
        | some e =>
          exact Or.inl ⟨inst, child, e, rfl, rfl, hp, hu,
            Reconcile_update_error r a req inst child e hi hc hp hu⟩
        | none =>
          exact Or.inr (Or.inl ⟨inst, child, rfl, rfl, hp, hu,
            Reconcile_update_ok r a req inst child hi hc hp hu⟩)

/-- The call `SetControllerReference` touches nothing but the owner references of
the controlled object. -/
theorem SetControllerReference_frame (owner : CustomOperator) (controlled : Deployment)
    (scheme : Scheme) :
    (SetControllerReference owner controlled scheme).2.Spec = controlled.Spec ∧
    (SetControllerReference owner controlled scheme).2.ObjectMeta.Name
      = controlled.ObjectMeta.Name ∧
    (SetControllerReference owner controlled scheme).2.ObjectMeta.Namespace
      = controlled.ObjectMeta.Namespace ∧
    (SetControllerReference owner controlled scheme).2.ObjectMeta.Labels
      = controlled.ObjectMeta.Labels := by
  unfold SetControllerReference
  split
  · simp
  · split
    · simp
    · split
      · simp only []
        split <;> simp
      · simp

/-- Unless the child read hands back the very address of `instance.Spec.Replicas`,
`Reconcile` issues an update. -/
theorem Reconcile_updates_unless_same_pointer (r : CustomOperatorReconciler) (a : Nat)
    (req : Request) (inst : CustomOperator) (child : Deployment)
    (hi : r.Client.getCustomOperator req.NamespacedName = .ok inst)
    (hc : r.Client.getDeployment (childKeyOf req) = .ok child)
    (hp : child.Spec.Replicas ≠ some a) :
    updates (Reconcile r a req).calls = [withReplicas child a] := by
  cases hu : r.Client.update (withReplicas child a) with
  | some e => rw [Reconcile_update_error r a req inst child e hi hc hp hu]; rfl
  | none => rw [Reconcile_update_ok r a req inst child hi hc hp hu]; rfl

/-- When `SetControllerReference` succeeds (the owner passes `validateOwner` and the
scheme knows exactly one kind for it), the child built by `createDeployment`
carries exactly one owner reference, to the instance. -/
theorem createDeployment_owner_of_registered (r : CustomOperatorReconciler)
    (inst : CustomOperator) (a : Nat) (name ns : String) (gvk : GroupVersionKind)
    (hs : r.Scheme.customOperatorKinds = [gvk])
    (hv : inst.ObjectMeta.Namespace = "" ∨ (ns ≠ "" ∧ inst.ObjectMeta.Namespace = ns)) :
    (createDeployment r inst a name ns).ObjectMeta.OwnerReferences =
      [{ APIVersion := gvk.apiVersion, Kind := gvk.Kind, Name := inst.ObjectMeta.Name
         UID := inst.ObjectMeta.UID, Controller := some true
         BlockOwnerDeletion := some true }] := by
  have hval : validateOwner inst.ObjectMeta { Name := name, Namespace := ns } = none := by
    rcases hv with h | ⟨h1, h2⟩
    · simp [validateOwner, h]
    · simp [validateOwner, h1, h2]
  simp [createDeployment, SetControllerReference, hval, GVKForObject, hs, GetControllerOf,
    upsertOwnerRef]

/-- When the scheme knows no kind for the instance, `SetControllerReference` fails and
the child built by `createDeployment` carries no owner reference. -/
theorem createDeployment_no_owner_of_unregistered (r : CustomOperatorReconciler)
    (inst : CustomOperator) (a : Nat) (name ns : String)
    (hs : r.Scheme.customOperatorKinds = []) :
    (createDeployment r inst a name ns).ObjectMeta.OwnerReferences = [] := by
  cases hval : validateOwner inst.ObjectMeta { Name := name, Namespace := ns } <;>
  simp [createDeployment, SetControllerReference, GVKForObject, hs, hval]

/-- Every call `Reconcile` makes is the instance read on the key of the request, the
child read on the fixed key, a create of the child built by `createDeployment`,
or an update. -/
theorem Reconcile_calls_mem (r : CustomOperatorReconciler) (a : Nat) (req : Request)
    (c : Call) (hmem : c ∈ (Reconcile r a req).calls) :
    c = .getCustomOperator req.NamespacedName ∨ c = .getDeployment (childKeyOf req) ∨
    (∃ inst, c = .create
      (createDeployment r inst a "custom-operator-deployment" req.Namespace)) ∨
    (∃ child, c = .update (withReplicas child a)) := by
  rcases Reconcile_paths r a req with
    ⟨e, hi, hnf, h⟩ | ⟨e, hi, hnf, h⟩ | ⟨inst, e, hi, hc, hnf, h⟩ |
    ⟨inst, e0, e, hi, hc, hnf, hcr, h⟩ | ⟨inst, e0, hi, hc, hnf, hcr, h⟩ |
    ⟨inst, child, e, hi, hc, hp, hu, h⟩ | ⟨inst, child, hi, hc, hp, hu, h⟩ |
    ⟨inst, child, hi, hc, hp, h⟩ <;>
  rw [h] at hmem <;>
  simp only [List.mem_cons, List.mem_singleton, List.not_mem_nil, or_false] at hmem
  · exact Or.inl hmem
  · exact Or.inl hmem
  · rcases hmem with h1 | h1
    · exact Or.inl h1
    · exact Or.inr (Or.inl h1)
  · rcases hmem with h1 | h1 | h1
    · exact Or.inl h1
    · exact Or.inr (Or.inl h1)
    · exact Or.inr (Or.inr (Or.inl ⟨inst, h1⟩))
  · rcases hmem with h1 | h1 | h1
    · exact Or.inl h1
    · exact Or.inr (Or.inl h1)
    · exact Or.inr (Or.inr (Or.inl ⟨inst, h1⟩))
  · rcases hmem with h1 | h1 | h1
    · exact Or.inl h1
    · exact Or.inr (Or.inl h1)
    · exact Or.inr (Or.inr (Or.inr ⟨child, h1⟩))
  · rcases hmem with h1 | h1 | h1
    · exact Or.inl h1
    · exact Or.inr (Or.inl h1)
    · exact Or.inr (Or.inr (Or.inr ⟨child, h1⟩))
  · rcases hmem with h1 | h1
    · exact Or.inl h1
    · exact Or.inr (Or.inl h1)

/-! ## The claims -/

/-- C1 (fails on the code): the instance `team-a/svc` asks for 5 replicas and the
child read returns a child whose replica count is 5, held in a cell of its own;
both reads succeed, the replica counts are equal, and `Reconcile` still issues
an update, because line 102 compares the two pointers and not the counts. -/
theorem Reconcile_equal_replicas_still_updates :
    (cluster (some (svc 5)) (some childAt100) none (fun _ => 5)).getCustomOperator
        reqSvc.NamespacedName = .ok (svc 5) ∧
    (cluster (some (svc 5)) (some childAt100) none (fun _ => 5)).getDeployment
        (childKeyOf reqSvc) = .ok childAt100 ∧
    replicaCount (heapOf (fun _ => 5) 0 (svc 5)) childAt100 = some (svc 5).Spec.Replicas ∧
    updates (Reconcile
      { Client := cluster (some (svc 5)) (some childAt100) none (fun _ => 5)
        Scheme := registeredScheme } 0 reqSvc).calls = [withReplicas childAt100 0] := by
  refine ⟨rfl, rfl, by decide, by decide⟩

/-- C2: when both reads succeed, the replica count of the child differs from
`instance.Spec.Replicas` and the update succeeds, `Reconcile` issues exactly one
update and no create, the object passed to update has replica count
`instance.Spec.Replicas`, and the result is the empty `Result` with a nil error. -/
theorem Reconcile_drift_issues_one_update (r : CustomOperatorReconciler) (a : Nat)
    (req : Request) (inst : CustomOperator) (child : Deployment)
    (hi : r.Client.getCustomOperator req.NamespacedName = .ok inst)
    (hc : r.Client.getDeployment (childKeyOf req) = .ok child)
    (hne : replicaCount (heapOf r.Client.cells a inst) child ≠ some inst.Spec.Replicas)
    (hu : ∀ obj ∈ updates (Reconcile r a req).calls, r.Client.update obj = none) :
    ∃ obj, updates (Reconcile r a req).calls = [obj] ∧
      creates (Reconcile r a req).calls = [] ∧
      ((Reconcile r a req).calls.filter Call.isMutation).length = 1 ∧
      replicaCount (heapOf r.Client.cells a inst) obj = some inst.Spec.Replicas ∧
      (Reconcile r a req).result = {} ∧
      (Reconcile r a req).result.Requeue = false ∧
      (Reconcile r a req).err = none := by
  have hp : child.Spec.Replicas ≠ some a := by
    intro h
    apply hne
    simp [replicaCount, heapOf, h]
  have hup := Reconcile_updates_unless_same_pointer r a req inst child hi hc hp
  have hok : r.Client.update (withReplicas child a) = none :=
    hu _ (by rw [hup]; exact List.mem_singleton.mpr rfl)
  rw [Reconcile_update_ok r a req inst child hi hc hp hok]
  refine ⟨withReplicas child a, rfl, rfl, rfl, ?_, rfl, rfl, rfl⟩
  simp [replicaCount, heapOf, withReplicas]

/-- C2 at `team-a/svc` with 5 replicas and a child with 3. -/
theorem Reconcile_drift_issues_one_update_witness :
    ∃ obj, updates (Reconcile
        { Client := cluster (some (svc 5)) (some childAt100) none (fun _ => 3)
          Scheme := registeredScheme } 0 reqSvc).calls = [obj] ∧
      creates (Reconcile
        { Client := cluster (some (svc 5)) (some childAt100) none (fun _ => 3)
          Scheme := registeredScheme } 0 reqSvc).calls = [] ∧
      ((Reconcile
        { Client := cluster (some (svc 5)) (some childAt100) none (fun _ => 3)
          Scheme := registeredScheme } 0 reqSvc).calls.filter Call.isMutation).length = 1 ∧
      replicaCount (heapOf (fun _ => 3) 0 (svc 5)) obj = some 5 ∧
      (Reconcile
        { Client := cluster (some (svc 5)) (some childAt100) none (fun _ => 3)
          Scheme := registeredScheme } 0 reqSvc).result = {} ∧
      (Reconcile
        { Client := cluster (some (svc 5)) (some childAt100) none (fun _ => 3)
          Scheme := registeredScheme } 0 reqSvc).result.Requeue = false ∧
      (Reconcile
        { Client := cluster (some (svc 5)) (some childAt100) none (fun _ => 3)
          Scheme := registeredScheme } 0 reqSvc).err = none :=
  Reconcile_drift_issues_one_update
    { Client := cluster (some (svc 5)) (some childAt100) none (fun _ => 3)
      Scheme := registeredScheme } 0 reqSvc (svc 5) childAt100 rfl rfl (by decide)
    (fun _ _ => rfl)

/-- C3: when the instance read succeeds, the child read fails with NotFound and the
create succeeds, `Reconcile` issues exactly one create and no update and returns
`Result{Requeue: true}` with a nil error, which is not the empty `Result`. -/
theorem Reconcile_missing_child_creates_and_requeues (r : CustomOperatorReconciler)
    (a : Nat) (req : Request) (inst : CustomOperator) (e : GoError)
    (hi : r.Client.getCustomOperator req.NamespacedName = .ok inst)
    (hc : r.Client.getDeployment (childKeyOf req) = .error e)
    (hnf : IsNotFound e = true)
    (hcr : ∀ obj ∈ creates (Reconcile r a req).calls, r.Client.create obj = none) :
    (creates (Reconcile r a req).calls).length = 1 ∧
      updates (Reconcile r a req).calls = [] ∧
      ((Reconcile r a req).calls.filter Call.isMutation).length = 1 ∧
      (Reconcile r a req).result = { Requeue := true } ∧
      (Reconcile r a req).err = none ∧
      (Reconcile r a req).result ≠ {} := by
  have hok : r.Client.create
      (createDeployment r inst a "custom-operator-deployment" req.Namespace) = none := by
    cases hcr0 : r.Client.create
        (createDeployment r inst a "custom-operator-deployment" req.Namespace) with
    | none => rfl
    | some e1 =>
      have hmem := hcr (createDeployment r inst a "custom-operator-deployment" req.Namespace)
        (by rw [Reconcile_create_error r a req inst e e1 hi hc hnf hcr0]; simp [creates])
      rw [hcr0] at hmem
      exact hmem
  rw [Reconcile_create_ok r a req inst e hi hc hnf hok]
  refine ⟨rfl, rfl, rfl, rfl, rfl, ?_⟩
  intro h
  cases h

/-- C3 at `team-a/svc` with no child in the cluster. -/
theorem Reconcile_missing_child_creates_and_requeues_witness :
    (creates (Reconcile
        { Client := cluster (some (svc 3)) none none (fun _ => 0)
          Scheme := registeredScheme } 0 reqSvc).calls).length = 1 ∧
      updates (Reconcile
        { Client := cluster (some (svc 3)) none none (fun _ => 0)
          Scheme := registeredScheme } 0 reqSvc).calls = [] ∧
      ((Reconcile
        { Client := cluster (some (svc 3)) none none (fun _ => 0)
          Scheme := registeredScheme } 0 reqSvc).calls.filter Call.isMutation).length = 1 ∧
      (Reconcile
        { Client := cluster (some (svc 3)) none none (fun _ => 0)
          Scheme := registeredScheme } 0 reqSvc).result = { Requeue := true } ∧
      (Reconcile
        { Client := cluster (some (svc 3)) none none (fun _ => 0)
          Scheme := registeredScheme } 0 reqSvc).err = none ∧
      (Reconcile
        { Client := cluster (some (svc 3)) none none (fun _ => 0)
          Scheme := registeredScheme } 0 reqSvc).result ≠ {} :=
  Reconcile_missing_child_creates_and_requeues
    { Client := cluster (some (svc 3)) none none (fun _ => 0)
      Scheme := registeredScheme } 0 reqSvc (svc 3) notFound rfl rfl rfl (fun _ _ => rfl)

/-- C4: when the instance read fails with NotFound, `Reconcile` returns the empty
`Result` with a nil error, its only call is the instance read (so the child is
not read), and it issues no create and no update. -/
theorem Reconcile_instance_absent_is_noop (r : CustomOperatorReconciler) (a : Nat)
    (req : Request) (e : GoError)
    (hi : r.Client.getCustomOperator req.NamespacedName = .error e)
    (hnf : IsNotFound e = true) :
    (Reconcile r a req).result = {} ∧
      (Reconcile r a req).err = none ∧
      (Reconcile r a req).calls = [.getCustomOperator req.NamespacedName] ∧
      (∀ key, Call.getDeployment key ∉ (Reconcile r a req).calls) ∧
      creates (Reconcile r a req).calls = [] ∧
      updates (Reconcile r a req).calls = [] ∧
      (Reconcile r a req).calls.filter Call.isMutation = [] := by
  rw [Reconcile_instance_notFound r a req e hi hnf]
  refine ⟨rfl, rfl, rfl, ?_, rfl, rfl, rfl⟩
  intro key h
  simp at h

/-- C4 at the key `team-a/svc` in a cluster that holds no instance. -/
theorem Reconcile_instance_absent_is_noop_witness :
    (Reconcile
        { Client := cluster none (some childAt100) none (fun _ => 3)
          Scheme := registeredScheme } 0 reqSvc).result = {} ∧
      (Reconcile
        { Client := cluster none (some childAt100) none (fun _ => 3)
          Scheme := registeredScheme } 0 reqSvc).err = none ∧
      (Reconcile
        { Client := cluster none (some childAt100) none (fun _ => 3)
          Scheme := registeredScheme } 0 reqSvc).calls
        = [.getCustomOperator reqSvc.NamespacedName] ∧
      (∀ key, Call.getDeployment key ∉ (Reconcile
        { Client := cluster none (some childAt100) none (fun _ => 3)
          Scheme := registeredScheme } 0 reqSvc).calls) ∧
      creates (Reconcile
        { Client := cluster none (some childAt100) none (fun _ => 3)
          Scheme := registeredScheme } 0 reqSvc).calls = [] ∧
      updates (Reconcile
        { Client := cluster none (some childAt100) none (fun _ => 3)
          Scheme := registeredScheme } 0 reqSvc).calls = [] ∧
      (Reconcile
        { Client := cluster none (some childAt100) none (fun _ => 3)
          Scheme := registeredScheme } 0 reqSvc).calls.filter Call.isMutation = [] :=
  Reconcile_instance_absent_is_noop
    { Client := cluster none (some childAt100) none (fun _ => 3)
      Scheme := registeredScheme } 0 reqSvc notFound rfl rfl

/-- C5: `Reconcile` returns failures unchanged and never retries.  If the instance
read fails with an error that is not NotFound, that error is returned with the
empty `Result` and the instance read is the only call; likewise for the child
read, after the instance read.  Any call made that fails (such a read, a create
or an update with any error) makes `Reconcile` return exactly that error with
the empty `Result`; the failing call is the last call made and was made once.
Conversely a non-nil error returned by `Reconcile` is the error of its last
call, which is such a failing read, create or update. -/
theorem Reconcile_surfaces_failures (r : CustomOperatorReconciler) (a : Nat)
    (req : Request) :
    (∀ e, r.Client.getCustomOperator req.NamespacedName = .error e → IsNotFound e = false →
      Reconcile r a req =
        { result := {}, err := some e, calls := [.getCustomOperator req.NamespacedName] }) ∧
    (∀ inst e, r.Client.getCustomOperator req.NamespacedName = .ok inst →
      r.Client.getDeployment (childKeyOf req) = .error e → IsNotFound e = false →
      Reconcile r a req =
        { result := {}, err := some e
          calls := [.getCustomOperator req.NamespacedName,
            .getDeployment (childKeyOf req)] }) ∧
    (∀ call ∈ (Reconcile r a req).calls, ∀ e, r.Client.response call = some e →
      (call.isRead = true → IsNotFound e = false) →
        (Reconcile r a req).err = some e ∧
        (Reconcile r a req).result = {} ∧
        (Reconcile r a req).calls.getLast? = some call ∧
        (Reconcile r a req).calls.count call = 1) ∧
    (∀ e, (Reconcile r a req).err = some e →
      ∃ call, (Reconcile r a req).calls.getLast? = some call ∧
        r.Client.response call = some e ∧
        (call.isRead = true → IsNotFound e = false) ∧
        (call.isRead = true ∨ (∃ obj, call = .create obj) ∨ (∃ obj, call = .update obj))) := by
  refine ⟨fun e hi hnf => Reconcile_instance_error r a req e hi hnf,
    fun inst e hi hc hnf => Reconcile_child_error r a req inst e hi hc hnf, ?_⟩
  rcases Reconcile_paths r a req with
    ⟨e, hi, hnf, h⟩ | ⟨e, hi, hnf, h⟩ | ⟨inst, e, hi, hc, hnf, h⟩ |
    ⟨inst, e0, e, hi, hc, hnf, hcr, h⟩ | ⟨inst, e0, hi, hc, hnf, hcr, h⟩ |
    ⟨inst, child, e, hi, hc, hp, hu, h⟩ | ⟨inst, child, hi, hc, hp, hu, h⟩ |
    ⟨inst, child, hi, hc, hp, h⟩ <;>
  rw [h] <;> refine ⟨?_, ?_⟩
  · intro call hmem e1 hresp hread
    simp only [List.mem_singleton] at hmem
    subst hmem
    simp only [Client.response, hi, Option.some.injEq] at hresp
    subst hresp
    have := hread rfl
    simp [hnf] at this
  · intro e1 h1
    simp at h1
  · intro call hmem e1 hresp hread
    simp only [List.mem_singleton] at hmem
    subst hmem
    simp only [Client.response, hi, Option.some.injEq] at hresp
    subst hresp
    simp
  · intro e1 h1
    simp only [Option.some.injEq] at h1
    subst h1
    exact ⟨_, rfl, by simp [Client.response, hi], fun _ => hnf, Or.inl rfl⟩
  · intro call hmem e1 hresp hread
    simp only [List.mem_cons, List.mem_singleton, List.not_mem_nil, or_false] at hmem
    rcases hmem with hmem | hmem <;> subst hmem
    · simp [Client.response, hi] at hresp
    · simp only [Client.response, hc, Option.some.injEq] at hresp
      subst hresp
      simp
  · intro e1 h1
    simp only [Option.some.injEq] at h1
    subst h1
    exact ⟨_, rfl, by simp [Client.response, hc], fun _ => hnf, Or.inl rfl⟩
  · intro call hmem e1 hresp hread
    simp only [List.mem_cons, List.mem_singleton, List.not_mem_nil, or_false] at hmem
    rcases hmem with hmem | hmem | hmem <;> subst hmem
    · simp [Client.response, hi] at hresp
    · simp only [Client.response, hc, Option.some.injEq] at hresp
      subst hresp
      have := hread rfl
      simp [hnf] at this
    · simp only [Client.response, hcr, Option.some.injEq] at hresp
      subst hresp
      simp
  · intro e1 h1
    simp only [Option.some.injEq] at h1
    subst h1
    exact ⟨_, rfl, by simp [Client.response, hcr], by simp [Call.isRead],
      Or.inr (Or.inl ⟨_, rfl⟩)⟩
  · intro call hmem e1 hresp hread
    simp only [List.mem_cons, List.mem_singleton, List.not_mem_nil, or_false] at hmem
    rcases hmem with hmem | hmem | hmem <;> subst hmem
    · simp [Client.response, hi] at hresp
    · simp only [Client.response, hc, Option.some.injEq] at hresp
      subst hresp
      have := hread rfl
      simp [hnf] at this
    · simp [Client.response, hcr] at hresp
  · intro e1 h1
    simp at h1
  · intro call hmem e1 hresp hread
    simp only [List.mem_cons, List.mem_singleton, List.not_mem_nil, or_false] at hmem
    rcases hmem with hmem | hmem | hmem <;> subst hmem
    · simp [Client.response, hi] at hresp
    · simp [Client.response, hc] at hresp
    · simp only [Client.response, hu, Option.some.injEq] at hresp
      subst hresp
      simp
  · intro e1 h1
    simp only [Option.some.injEq] at h1
    subst h1
    exact ⟨_, rfl, by simp [Client.response, hu], by simp [Call.isRead],
      Or.inr (Or.inr ⟨_, rfl⟩)⟩
  · intro call hmem e1 hresp hread
    simp only [List.mem_cons, List.mem_singleton, List.not_mem_nil, or_false] at hmem
    rcases hmem with hmem | hmem | hmem <;> subst hmem
    · simp [Client.response, hi] at hresp
    · simp [Client.response, hc] at hresp
    · simp [Client.response, hu] at hresp
  · intro e1 h1
    simp at h1
  · intro call hmem e1 hresp hread
    simp only [List.mem_cons, List.mem_singleton, List.not_mem_nil, or_false] at hmem
    rcases hmem with hmem | hmem <;> subst hmem
    · simp [Client.response, hi] at hresp
    · simp [Client.response, hc] at hresp
  · intro e1 h1
    simp at h1

/-- C5 at `team-a/svc` with no child, in a cluster that rejects the create with a
conflict: `Reconcile` returns that conflict, and the create is its last call. -/
theorem Reconcile_surfaces_failures_witness :
    (Reconcile
        { Client := cluster (some (svc 3)) none (some conflict) (fun _ => 0)
          Scheme := registeredScheme } 0 reqSvc).err = some conflict ∧
      (Reconcile
        { Client := cluster (some (svc 3)) none (some conflict) (fun _ => 0)
          Scheme := registeredScheme } 0 reqSvc).result = {} ∧
      (Reconcile
        { Client := cluster (some (svc 3)) none (some conflict) (fun _ => 0)
          Scheme := registeredScheme } 0 reqSvc).calls.getLast?
        = some (.create (createDeployment
            { Client := cluster (some (svc 3)) none (some conflict) (fun _ => 0)
              Scheme := registeredScheme } (svc 3) 0 "custom-operator-deployment" "team-a")) ∧
      (Reconcile
        { Client := cluster (some (svc 3)) none (some conflict) (fun _ => 0)
          Scheme := registeredScheme } 0 reqSvc).calls.count
        (.create (createDeployment
            { Client := cluster (some (svc 3)) none (some conflict) (fun _ => 0)
              Scheme := registeredScheme } (svc 3) 0 "custom-operator-deployment" "team-a"))
        = 1 :=
  (Reconcile_surfaces_failures
    { Client := cluster (some (svc 3)) none (some conflict) (fun _ => 0)
      Scheme := registeredScheme } 0 reqSvc).2.2.1
    (.create (createDeployment
      { Client := cluster (some (svc 3)) none (some conflict) (fun _ => 0)
        Scheme := registeredScheme } (svc 3) 0 "custom-operator-deployment" "team-a"))
    (by decide) conflict rfl (fun h => by cases h)

/-- C6: whatever the client answers, one invocation of `Reconcile` makes at most one
mutating call (so never a create and an update, never two creates, never two
updates), never a delete, and its reads are the instance read, or the instance
read followed by the child read. -/
theorem Reconcile_at_most_one_mutation (r : CustomOperatorReconciler) (a : Nat)
    (req : Request) :
    ((Reconcile r a req).calls.filter Call.isMutation).length ≤ 1 ∧
    (creates (Reconcile r a req).calls).length
      + (updates (Reconcile r a req).calls).length ≤ 1 ∧
    (Reconcile r a req).calls.filter Call.isDelete = [] ∧
    ((Reconcile r a req).calls.filter Call.isRead).length ≤ 2 ∧
    ((Reconcile r a req).calls.filter Call.isRead
        = [.getCustomOperator req.NamespacedName] ∨
      (Reconcile r a req).calls.filter Call.isRead
        = [.getCustomOperator req.NamespacedName, .getDeployment (childKeyOf req)]) := by
  rcases Reconcile_paths r a req with
    ⟨e, hi, hnf, h⟩ | ⟨e, hi, hnf, h⟩ | ⟨inst, e, hi, hc, hnf, h⟩ |
    ⟨inst, e0, e, hi, hc, hnf, hcr, h⟩ | ⟨inst, e0, hi, hc, hnf, hcr, h⟩ |
    ⟨inst, child, e, hi, hc, hp, hu, h⟩ | ⟨inst, child, hi, hc, hp, hu, h⟩ |
    ⟨inst, child, hi, hc, hp, h⟩ <;>
  rw [h] <;>
  simp [creates, updates, Call.isMutation, Call.isDelete, Call.isRead]

/-- C7: for an instance named `n` with `Spec.Replicas = k`, reconciled in the
namespace of the request with no child present, the object passed to create
is named `custom-operator-deployment`, lives in the namespace of the request,
has replica count `k`, and its selector `MatchLabels` and its pod-template
labels are both the two entries `app: replicas`, `customoperator_cr: n`. -/
theorem Reconcile_created_child_shape (r : CustomOperatorReconciler) (a : Nat)
    (req : Request) (inst : CustomOperator) (e : GoError)
    (hi : r.Client.getCustomOperator req.NamespacedName = .ok inst)
    (hc : r.Client.getDeployment (childKeyOf req) = .error e)
    (hnf : IsNotFound e = true) :
    ∃ obj, creates (Reconcile r a req).calls = [obj] ∧
      obj.ObjectMeta.Name = "custom-operator-deployment" ∧
      obj.ObjectMeta.Namespace = req.Namespace ∧
      replicaCount (heapOf r.Client.cells a inst) obj = some inst.Spec.Replicas ∧
      obj.Spec.Selector = some { MatchLabels :=
        [("app", "replicas"), ("customoperator_cr", inst.ObjectMeta.Name)] } ∧
      obj.Spec.Template.ObjectMeta.Labels =
        [("app", "replicas"), ("customoperator_cr", inst.ObjectMeta.Name)] := by
  have hcalls : creates (Reconcile r a req).calls
      = [createDeployment r inst a "custom-operator-deployment" req.Namespace] := by
    cases hcr : r.Client.create
        (createDeployment r inst a "custom-operator-deployment" req.Namespace) with
    | some e1 => rw [Reconcile_create_error r a req inst e e1 hi hc hnf hcr]; rfl
    | none => rw [Reconcile_create_ok r a req inst e hi hc hnf hcr]; rfl
  refine ⟨_, hcalls, ?_, ?_, ?_, ?_, ?_⟩
  · simp [createDeployment, (SetControllerReference_frame _ _ _).2.1]
  · simp [createDeployment, (SetControllerReference_frame _ _ _).2.2.1]
  · simp [createDeployment, replicaCount, heapOf, (SetControllerReference_frame _ _ _).1]
  · simp [createDeployment, labelsForCustomOperator, (SetControllerReference_frame _ _ _).1]
  · simp [createDeployment, labelsForCustomOperator, (SetControllerReference_frame _ _ _).1]

/-- C7 at the instance `team-a/svc` with 3 replicas and no child. -/
theorem Reconcile_created_child_shape_witness :
    ∃ obj, creates (Reconcile
        { Client := cluster (some (svc 3)) none none (fun _ => 0)
          Scheme := registeredScheme } 0 reqSvc).calls = [obj] ∧
      obj.ObjectMeta.Name = "custom-operator-deployment" ∧
      obj.ObjectMeta.Namespace = "team-a" ∧
      replicaCount (heapOf (fun _ => 0) 0 (svc 3)) obj = some 3 ∧
      obj.Spec.Selector = some { MatchLabels :=
        [("app", "replicas"), ("customoperator_cr", "svc")] } ∧
      obj.Spec.Template.ObjectMeta.Labels =
        [("app", "replicas"), ("customoperator_cr", "svc")] :=
  Reconcile_created_child_shape
    { Client := cluster (some (svc 3)) none none (fun _ => 0)
      Scheme := registeredScheme } 0 reqSvc (svc 3) notFound rfl rfl rfl

/-- C8 (fails on the code): the instance `team-a/svc` has no child and the scheme of
the reconciler has no kind registered for `CustomOperator`; the call
`SetControllerReference` fails, `createDeployment` drops its error, and the
object passed to create carries no owner reference at all. -/
theorem Reconcile_creates_child_without_owner_reference :
    ∃ obj, creates (Reconcile
        { Client := cluster (some (svc 3)) none none (fun _ => 0)
          Scheme := emptyScheme } 0 reqSvc).calls = [obj] ∧
      obj.ObjectMeta.OwnerReferences = [] ∧
      hasOwnerReferenceTo obj (svc 3) = false :=
  ⟨createDeployment
      { Client := cluster (some (svc 3)) none none (fun _ => 0), Scheme := emptyScheme }
      (svc 3) 0 "custom-operator-deployment" "team-a",
    by decide, by decide, by decide⟩

/-- C9: an object passed to update is the child returned by the child read with
`Spec.Replicas` replaced and nothing else: its metadata (name, namespace,
labels, owner references), its selector and its pod template are those of the
child that was read. -/
theorem Reconcile_update_changes_only_replicas (r : CustomOperatorReconciler) (a : Nat)
    (req : Request) (obj : Deployment)
    (h : obj ∈ updates (Reconcile r a req).calls) :
    ∃ child, r.Client.getDeployment (childKeyOf req) = .ok child ∧
      obj = { child with Spec := { child.Spec with Replicas := obj.Spec.Replicas } } ∧
      obj.ObjectMeta = child.ObjectMeta ∧
      obj.ObjectMeta.Name = child.ObjectMeta.Name ∧
      obj.ObjectMeta.Namespace = child.ObjectMeta.Namespace ∧
      obj.ObjectMeta.Labels = child.ObjectMeta.Labels ∧
      obj.ObjectMeta.OwnerReferences = child.ObjectMeta.OwnerReferences ∧
      obj.Spec.Selector = child.Spec.Selector ∧
      obj.Spec.Template = child.Spec.Template := by
  rcases Reconcile_paths r a req with
    ⟨e, hi, hnf, h1⟩ | ⟨e, hi, hnf, h1⟩ | ⟨inst, e, hi, hc, hnf, h1⟩ |
    ⟨inst, e0, e, hi, hc, hnf, hcr, h1⟩ | ⟨inst, e0, hi, hc, hnf, hcr, h1⟩ |
    ⟨inst, child, e, hi, hc, hp, hu, h1⟩ | ⟨inst, child, hi, hc, hp, hu, h1⟩ |
    ⟨inst, child, hi, hc, hp, h1⟩ <;>
  rw [h1] at h <;> simp only [updates, List.not_mem_nil, List.mem_singleton] at h
  · subst h
    exact ⟨child, hc, rfl, rfl, rfl, rfl, rfl, rfl, rfl, rfl⟩
  · subst h
    exact ⟨child, hc, rfl, rfl, rfl, rfl, rfl, rfl, rfl, rfl⟩

/-- C9 at `team-a/svc` with 5 replicas and a child whose selector and labels are not
the ones `createDeployment` would build: the update keeps them. -/
theorem Reconcile_update_changes_only_replicas_witness :
    ∃ child, (cluster (some (svc 5)) (some childAt100) none (fun _ => 3)).getDeployment
        (childKeyOf reqSvc) = .ok child ∧
      withReplicas childAt100 0 =
        { child with Spec :=
            { child.Spec with Replicas := (withReplicas childAt100 0).Spec.Replicas } } ∧
      (withReplicas childAt100 0).ObjectMeta = child.ObjectMeta ∧
      (withReplicas childAt100 0).ObjectMeta.Name = child.ObjectMeta.Name ∧
      (withReplicas childAt100 0).ObjectMeta.Namespace = child.ObjectMeta.Namespace ∧
      (withReplicas childAt100 0).ObjectMeta.Labels = child.ObjectMeta.Labels ∧
      (withReplicas childAt100 0).ObjectMeta.OwnerReferences
        = child.ObjectMeta.OwnerReferences ∧
      (withReplicas childAt100 0).Spec.Selector = child.Spec.Selector ∧
      (withReplicas childAt100 0).Spec.Template = child.Spec.Template :=
  Reconcile_update_changes_only_replicas
    { Client := cluster (some (svc 5)) (some childAt100) none (fun _ => 3)
      Scheme := registeredScheme } 0 reqSvc (withReplicas childAt100 0) (by decide)

/-- C10: the key of the child that `Reconcile` looks up, and of the child it creates,
is the fixed name in the namespace of the request; two requests in the same
namespace, whatever their names and whatever the cluster answers, target the
same child key. -/
theorem Reconcile_child_key_of_namespace_only (r₁ r₂ : CustomOperatorReconciler)
    (a₁ a₂ : Nat) (req₁ req₂ : Request) (c₁ c₂ : Call) (k₁ k₂ : NamespacedName)
    (hns : req₁.Namespace = req₂.Namespace)
    (h₁ : c₁ ∈ (Reconcile r₁ a₁ req₁).calls) (hk₁ : c₁.lookupOrCreateKey = some k₁)
    (h₂ : c₂ ∈ (Reconcile r₂ a₂ req₂).calls) (hk₂ : c₂.lookupOrCreateKey = some k₂) :
    k₁ = { Namespace := req₁.Namespace, Name := "custom-operator-deployment" } ∧
      k₁ = k₂ := by
  have key : ∀ (r : CustomOperatorReconciler) (a : Nat) (req : Request) (c : Call)
      (k : NamespacedName), c ∈ (Reconcile r a req).calls → c.lookupOrCreateKey = some k →
      k = { Namespace := req.Namespace, Name := "custom-operator-deployment" } := by
    intro r a req c k hmem hk
    rcases Reconcile_calls_mem r a req c hmem with h | h | ⟨inst, h⟩ | ⟨child, h⟩ <;>
    subst h <;>
    simp only [Call.lookupOrCreateKey, Option.some.injEq, reduceCtorEq] at hk
    · subst hk
      rfl
    · subst hk
      simp [createDeployment, (SetControllerReference_frame _ _ _).2.1,
        (SetControllerReference_frame _ _ _).2.2.1]
  have e₁ := key r₁ a₁ req₁ c₁ k₁ h₁ hk₁
  have e₂ := key r₂ a₂ req₂ c₂ k₂ h₂ hk₂
  refine ⟨e₁, ?_⟩
  rw [e₁, e₂, hns]

/-- C10 at the requests `team-a/svc` (no child yet: the child is created) and
`team-a/other` (the child exists: it is looked up). -/
theorem Reconcile_child_key_of_namespace_only_witness :
    ({ Namespace := "team-a", Name := "custom-operator-deployment" } : NamespacedName)
        = { Namespace := reqSvc.Namespace, Name := "custom-operator-deployment" } ∧
      ({ Namespace := "team-a", Name := "custom-operator-deployment" } : NamespacedName)
        = childKeyOf reqOther :=
  Reconcile_child_key_of_namespace_only
    { Client := cluster (some (svc 3)) none none (fun _ => 0), Scheme := registeredScheme }
    { Client := cluster (some { svc 5 with ObjectMeta := { Name := "other", Namespace := "team-a" } })
        (some childAt100) none (fun _ => 3)
      Scheme := registeredScheme }
    0 1 reqSvc reqOther
    (.create (createDeployment
      { Client := cluster (some (svc 3)) none none (fun _ => 0), Scheme := registeredScheme }
      (svc 3) 0 "custom-operator-deployment" "team-a"))
    (.getDeployment (childKeyOf reqOther))
    { Namespace := "team-a", Name := "custom-operator-deployment" }
    (childKeyOf reqOther)
    rfl (by decide) (by decide) (by decide) rfl

end Controllers
